import Mathlib

/-!
Verification of the Student Performance Index (SPI) engine of `src/main.py`.

The embedding below mirrors `calculate_student_performance_index`
(src/main.py lines 107-194) and the cohort at-risk flag (line 563).
Python floats are modelled as rationals.  A pandas `Series.mean` is
`listMean`; `df.groupby(k)[v].mean()` is modelled by taking, for each
distinct key (`List.dedup` of the key column), the mean of the values of
the rows carrying that key.  pandas sorts groupby keys ascending, so
`.iloc[0]` / `.iloc[-1]` of a groupby result are the groups of the
minimum / maximum key; `listMin` / `listMax` compute those keys.
-/

/-- One row of the dataset: the columns consumed by the SPI engine. -/
structure AssessmentRecord where
  course_name : String
  assessment_no : ℤ
  assessment_score : ℚ
  attendance_rate : ℚ
  raised_hand_count : ℚ
  deriving DecidableEq, Repr

/-- Mean of a list of rationals, `Series.mean` (0 on the empty list;
the engine is only ever applied to non-empty record sets). -/
def listMean (l : List ℚ) : ℚ := l.sum / l.length

/-- src/main.py:123 `avg_score = student_data['assessment_score'].mean()`. -/
def avg_score (rs : List AssessmentRecord) : ℚ :=
  listMean (rs.map fun r => r.assessment_score)

/-- src/main.py:124 `academic_component = avg_score * 0.60`. -/
def academic_component (rs : List AssessmentRecord) : ℚ := avg_score rs * 0.60

/-- src/main.py:127 `avg_attendance = student_data['attendance_rate'].mean()`. -/
def avg_attendance (rs : List AssessmentRecord) : ℚ :=
  listMean (rs.map fun r => r.attendance_rate)

/-- src/main.py:128 `attendance_component = avg_attendance * 0.25`. -/
def attendance_component (rs : List AssessmentRecord) : ℚ := avg_attendance rs * 0.25

/-- src/main.py:132 `avg_engagement = student_data['raised_hand_count'].mean()`. -/
def avg_engagement (rs : List AssessmentRecord) : ℚ :=
  listMean (rs.map fun r => r.raised_hand_count)

/-- src/main.py:133 `normalized_engagement = min(avg_engagement / 30 * 100, 100)`. -/
def normalized_engagement (rs : List AssessmentRecord) : ℚ :=
  min (avg_engagement rs / 30 * 100) 100

/-- src/main.py:134 `engagement_component = normalized_engagement * 0.15`. -/
def engagement_component (rs : List AssessmentRecord) : ℚ :=
  normalized_engagement rs * 0.15

/-- src/main.py:137 `base_spi = academic + attendance + engagement`. -/
def base_spi (rs : List AssessmentRecord) : ℚ :=
  academic_component rs + attendance_component rs + engagement_component rs

/-- The distinct course names of a record set: the keys of
`student_data.groupby('course_name')` (src/main.py:140). -/
def courseNames (rs : List AssessmentRecord) : List String :=
  (rs.map fun r => r.course_name).dedup

/-- Per-course mean assessment score: one entry of
`student_data.groupby('course_name')['assessment_score'].mean()` (src/main.py:140). -/
def course_mean (rs : List AssessmentRecord) (c : String) : ℚ :=
  listMean ((rs.filter fun r => r.course_name == c).map fun r => r.assessment_score)

/-- src/main.py:141 `failed_courses = (courses_performance < passing_score).sum()`:
the number of distinct courses whose mean score is strictly below the threshold. -/
def failed_courses (rs : List AssessmentRecord) (passing_score : ℚ) : ℕ :=
  (courseNames rs).countP fun c => decide (course_mean rs c < passing_score)

/-- src/main.py:143-148: penalty 5 for exactly one failed course,
10 for two or more, otherwise 0. -/
def failure_penalty (rs : List AssessmentRecord) (passing_score : ℚ) : ℚ :=
  if failed_courses rs passing_score = 1 then 5
  else if 2 ≤ failed_courses rs passing_score then 10
  else 0

/-- Minimum of a list of integers (0 on the empty list): the first key of a
pandas groupby, whose keys are sorted ascending. -/
def listMin : List ℤ → ℤ
  | [] => 0
  | [n] => n
  | n :: m :: ns => min n (listMin (m :: ns))

/-- Maximum of a list of integers (0 on the empty list): the last key of a
pandas groupby, whose keys are sorted ascending. -/
def listMax : List ℤ → ℤ
  | [] => 0
  | [n] => n
  | n :: m :: ns => max n (listMax (m :: ns))

/-- The distinct assessment numbers of a record set: the keys of
`student_data.groupby('assessment_no')` (src/main.py:151); its length is
`len(assessment_scores)`. -/
def assessmentNos (rs : List AssessmentRecord) : List ℤ :=
  (rs.map fun r => r.assessment_no).dedup

/-- The assessment scores of the rows with a given assessment number. -/
def scores_at (rs : List AssessmentRecord) (n : ℤ) : List ℚ :=
  (rs.filter fun r => r.assessment_no == n).map fun r => r.assessment_score

/-- Per-assessment-number mean score: one entry of
`student_data.groupby('assessment_no')['assessment_score'].mean()` (src/main.py:151). -/
def mean_at (rs : List AssessmentRecord) (n : ℤ) : ℚ := listMean (scores_at rs n)

/-- The key of the group selected by `assessment_scores.iloc[0]`
(src/main.py:156): the minimum assessment number. -/
def firstNo (rs : List AssessmentRecord) : ℤ := listMin (rs.map fun r => r.assessment_no)

/-- The key of the group selected by `assessment_scores.iloc[-1]`
(src/main.py:157): the maximum assessment number. -/
def lastNo (rs : List AssessmentRecord) : ℤ := listMax (rs.map fun r => r.assessment_no)

/-- src/main.py:153-158 `performance_change`: last group mean minus first
group mean when at least two distinct assessment numbers exist, else 0. -/
def performance_change (rs : List AssessmentRecord) : ℚ :=
  if 2 ≤ (assessmentNos rs).length then mean_at rs (lastNo rs) - mean_at rs (firstNo rs)
  else 0

/-- src/main.py:152-161 `trend_penalty`: 5 when at least two distinct
assessment numbers exist and the change is below -10, else 0. -/
def trend_penalty (rs : List AssessmentRecord) : ℚ :=
  if 2 ≤ (assessmentNos rs).length ∧ performance_change rs < -10 then 5 else 0

/-- src/main.py:164-165 `spi_score = max(0, min(100, base - penalties))`. -/
def spi_score (rs : List AssessmentRecord) (passing_score : ℚ) : ℚ :=
  max 0 (min 100 (base_spi rs - failure_penalty rs passing_score - trend_penalty rs))

/-- The four classification levels (src/main.py:168-179). -/
inductive Status where
  | EXCELLENT
  | SATISFACTORY
  | ATRISK
  | CRITICAL
  deriving DecidableEq, Repr

/-- src/main.py:168-179: classification of a final SPI score. -/
def classify (s : ℚ) : Status :=
  if s ≥ 80 then Status.EXCELLENT
  else if s ≥ 65 then Status.SATISFACTORY
  else if s ≥ 50 then Status.ATRISK
  else Status.CRITICAL

/-- The fixed color token of each status (src/main.py:170-179). -/
def status_color : Status → String
  | Status.EXCELLENT => "#2E7D32"
  | Status.SATISFACTORY => "#F57C00"
  | Status.ATRISK => "#EF6C00"
  | Status.CRITICAL => "#C62828"

/-- The outputs of `calculate_student_performance_index`: the returned
tuple `(spi_score, status, status_color, details)` flattened, with the
`details` dictionary fields of src/main.py:182-192. -/
structure SpiResult where
  spi_score : ℚ
  status : Status
  status_color : String
  base_spi : ℚ
  academic_component : ℚ
  attendance_component : ℚ
  engagement_component : ℚ
  failure_penalty : ℚ
  trend_penalty : ℚ
  failed_courses : ℕ
  performance_trend : ℚ
  normalized_engagement : ℚ
  deriving DecidableEq, Repr

/-- src/main.py:107-194 `calculate_student_performance_index`.  The Python
default for `passing_score` is 60; every caller in the source passes
`PASSING_SCORE = 60` explicitly. -/
def calculate_student_performance_index (student_data : List AssessmentRecord)
    (passing_score : ℚ) : SpiResult :=
  { spi_score := spi_score student_data passing_score
    status := classify (spi_score student_data passing_score)
    status_color := status_color (classify (spi_score student_data passing_score))
    base_spi := base_spi student_data
    academic_component := academic_component student_data
    attendance_component := attendance_component student_data
    engagement_component := engagement_component student_data
    failure_penalty := failure_penalty student_data passing_score
    trend_penalty := trend_penalty student_data
    failed_courses := failed_courses student_data passing_score
    performance_trend := performance_change student_data
    normalized_engagement := normalized_engagement student_data }

/-- src/main.py:563: a student is flagged at risk iff the status is
AT RISK or CRITICAL (`student_avg['status'].isin(['AT RISK', 'CRITICAL'])`). -/
def at_risk (s : Status) : Bool := s == Status.ATRISK || s == Status.CRITICAL

theorem calc_spi_score (rs : List AssessmentRecord) (p : ℚ) :
    (calculate_student_performance_index rs p).spi_score = spi_score rs p := rfl

theorem calc_status (rs : List AssessmentRecord) (p : ℚ) :
    (calculate_student_performance_index rs p).status = classify (spi_score rs p) := rfl

theorem calc_status_color (rs : List AssessmentRecord) (p : ℚ) :
    (calculate_student_performance_index rs p).status_color
      = status_color (classify (spi_score rs p)) := rfl

theorem calc_base_spi (rs : List AssessmentRecord) (p : ℚ) :
    (calculate_student_performance_index rs p).base_spi = base_spi rs := rfl

theorem calc_academic (rs : List AssessmentRecord) (p : ℚ) :
    (calculate_student_performance_index rs p).academic_component = academic_component rs := rfl

theorem calc_attendance (rs : List AssessmentRecord) (p : ℚ) :
    (calculate_student_performance_index rs p).attendance_component = attendance_component rs := rfl

theorem calc_engagement (rs : List AssessmentRecord) (p : ℚ) :
    (calculate_student_performance_index rs p).engagement_component = engagement_component rs := rfl

theorem calc_failure_penalty (rs : List AssessmentRecord) (p : ℚ) :
    (calculate_student_performance_index rs p).failure_penalty = failure_penalty rs p := rfl

theorem calc_trend_penalty (rs : List AssessmentRecord) (p : ℚ) :
    (calculate_student_performance_index rs p).trend_penalty = trend_penalty rs := rfl

theorem calc_failed_courses (rs : List AssessmentRecord) (p : ℚ) :
    (calculate_student_performance_index rs p).failed_courses = failed_courses rs p := rfl

theorem calc_performance_trend (rs : List AssessmentRecord) (p : ℚ) :
    (calculate_student_performance_index rs p).performance_trend = performance_change rs := rfl

theorem calc_normalized_engagement (rs : List AssessmentRecord) (p : ℚ) :
    (calculate_student_performance_index rs p).normalized_engagement
      = normalized_engagement rs := rfl

theorem listMean_nil : listMean [] = 0 := by simp [listMean]

theorem listMean_map_add (l : List ℚ) (c : ℚ) (h : l ≠ []) :
    listMean (l.map fun x => x + c) = listMean l + c := by
  have hsum : (l.map fun x => x + c).sum = l.sum + l.length * c := by
    induction l with
    | nil => simp
    | cons a t ih => simp [ih]; ring
  have hlen : ((l.length : ℚ)) ≠ 0 := by
    have h0 : l.length ≠ 0 := by simpa [List.length_eq_zero] using h
    exact_mod_cast h0
  unfold listMean
  rw [hsum, List.length_map]
  field_simp
  ring

theorem listMin_mem (l : List ℤ) (h : l ≠ []) : listMin l ∈ l := by
  induction l with
  | nil => exact absurd rfl h
  | cons n t ih =>
    cases t with
    | nil => simp [listMin]
    | cons m ns =>
      rcases le_total n (listMin (m :: ns)) with hle | hle
      · simp only [listMin, min_eq_left hle]
        exact List.mem_cons_self _ _
      · have hmem := ih (by simp)
        simp only [listMin, min_eq_right hle]
        exact List.mem_cons_of_mem _ hmem

theorem listMin_le (l : List ℤ) (x : ℤ) (hx : x ∈ l) : listMin l ≤ x := by
  induction l with
  | nil => simp at hx
  | cons n t ih =>
    cases t with
    | nil =>
      simp only [List.mem_singleton] at hx
      simp [listMin, hx]
    | cons m ns =>
      rcases List.mem_cons.mp hx with rfl | hmem
      · simp only [listMin]
        exact min_le_left _ _
      · simp only [listMin]
        exact le_trans (min_le_right _ _) (ih hmem)

theorem listMax_mem (l : List ℤ) (h : l ≠ []) : listMax l ∈ l := by
  induction l with
  | nil => exact absurd rfl h
  | cons n t ih =>
    cases t with
    | nil => simp [listMax]
    | cons m ns =>
      rcases le_total n (listMax (m :: ns)) with hle | hle
      · have hmem := ih (by simp)
        simp only [listMax, max_eq_right hle]
        exact List.mem_cons_of_mem _ hmem
      · simp only [listMax, max_eq_left hle]
        exact List.mem_cons_self _ _

theorem le_listMax (l : List ℤ) (x : ℤ) (hx : x ∈ l) : x ≤ listMax l := by
  induction l with
  | nil => simp at hx
  | cons n t ih =>
    cases t with
    | nil =>
      simp only [List.mem_singleton] at hx
      simp [listMax, hx]
    | cons m ns =>
      rcases List.mem_cons.mp hx with rfl | hmem
      · simp only [listMax]
        exact le_max_left _ _
      · simp only [listMax]
        exact le_trans (ih hmem) (le_max_right _ _)

theorem listMin_append (l1 l2 : List ℤ) (h1 : l1 ≠ [])
    (h : ∀ x ∈ l2, listMin l1 < x) : listMin (l1 ++ l2) = listMin l1 := by
  have hne : l1 ++ l2 ≠ [] := by
    cases l1 with
    | nil => exact absurd rfl h1
    | cons a t => simp
  have hmem := listMin_mem (l1 ++ l2) hne
  have hle : listMin (l1 ++ l2) ≤ listMin l1 :=
    listMin_le _ _ (List.mem_append_left _ (listMin_mem l1 h1))
  rcases List.mem_append.mp hmem with h2 | h2
  · exact le_antisymm hle (listMin_le l1 _ h2)
  · exact absurd (lt_of_lt_of_le (h _ h2) hle) (lt_irrefl _)

theorem listMax_append (l1 l2 : List ℤ) (h1 : l1 ≠ [])
    (h : ∀ x ∈ l2, x < listMax l1) : listMax (l1 ++ l2) = listMax l1 := by
  have hne : l1 ++ l2 ≠ [] := by
    cases l1 with
    | nil => exact absurd rfl h1
    | cons a t => simp
  have hmem := listMax_mem (l1 ++ l2) hne
  have hle : listMax l1 ≤ listMax (l1 ++ l2) :=
    le_listMax _ _ (List.mem_append_left _ (listMax_mem l1 h1))
  rcases List.mem_append.mp hmem with h2 | h2
  · exact le_antisymm (le_listMax l1 _ h2) hle
  · exact absurd (lt_of_le_of_lt hle (h _ h2)) (lt_irrefl _)

theorem two_le_length_of_mem {l : List ℤ} {a b : ℤ} (ha : a ∈ l) (hb : b ∈ l)
    (hab : a ≠ b) : 2 ≤ l.length := by
  cases l with
  | nil => simp at ha
  | cons x t =>
    cases t with
    | nil =>
      simp only [List.mem_singleton] at ha hb
      exact absurd (ha.trans hb.symm) hab
    | cons y u =>
      simp only [List.length_cons]
      omega

theorem two_le_dedup_length {l : List ℤ} {a b : ℤ} (ha : a ∈ l) (hb : b ∈ l)
    (hab : a ≠ b) : 2 ≤ l.dedup.length :=
  two_le_length_of_mem (List.mem_dedup.mpr ha) (List.mem_dedup.mpr hb) hab

theorem clamp_mono {a b : ℚ} (h : a ≤ b) :
    max 0 (min 100 a) ≤ max 0 (min 100 b) :=
  max_le_max le_rfl (min_le_min le_rfl h)

theorem spi_score_nonneg (rs : List AssessmentRecord) (p : ℚ) : 0 ≤ spi_score rs p :=
  le_max_left 0 _

theorem spi_score_le_100 (rs : List AssessmentRecord) (p : ℚ) : spi_score rs p ≤ 100 :=
  max_le (by norm_num) (min_le_left _ _)

theorem classify_excellent_iff (s : ℚ) : classify s = Status.EXCELLENT ↔ 80 ≤ s := by
  unfold classify
  split_ifs with h1 h2 h3
  · simpa using h1
  · simpa using h1
  · simpa using h1
  · simpa using h1

theorem classify_satisfactory_iff (s : ℚ) :
    classify s = Status.SATISFACTORY ↔ 65 ≤ s ∧ s < 80 := by
  unfold classify
  split_ifs with h1 h2 h3
  · simp only [reduceCtorEq, false_iff, not_and, not_lt]
    intro _
    exact h1
  · simp only [true_iff]
    exact ⟨h2, lt_of_not_ge h1⟩
  · simp only [reduceCtorEq, false_iff, not_and, not_lt]
    intro h
    exact absurd h h2
  · simp only [reduceCtorEq, false_iff, not_and, not_lt]
    intro h
    exact absurd h h2

theorem classify_atrisk_iff (s : ℚ) :
    classify s = Status.ATRISK ↔ 50 ≤ s ∧ s < 65 := by
  unfold classify
  split_ifs with h1 h2 h3
  · simp only [reduceCtorEq, false_iff, not_and, not_lt]
    intro _
    exact le_trans (by norm_num) h1
  · simp only [reduceCtorEq, false_iff, not_and, not_lt]
    intro _
    exact h2
  · simp only [true_iff]
    exact ⟨h3, lt_of_not_ge h2⟩
  · simp only [reduceCtorEq, false_iff, not_and, not_lt]
    intro h
    exact absurd h h3

theorem classify_critical_iff (s : ℚ) : classify s = Status.CRITICAL ↔ s < 50 := by
  unfold classify
  split_ifs with h1 h2 h3
  · simp only [reduceCtorEq, false_iff, not_lt]
    exact le_trans (by norm_num) h1
  · simp only [reduceCtorEq, false_iff, not_lt]
    exact le_trans (by norm_num) h2
  · simp only [reduceCtorEq, false_iff, not_lt]
    exact h3
  · simp only [true_iff]
    exact lt_of_not_ge h3

theorem failure_penalty_cases (rs : List AssessmentRecord) (p : ℚ) :
    (failed_courses rs p = 0 → failure_penalty rs p = 0) ∧
    (failed_courses rs p = 1 → failure_penalty rs p = 5) ∧
    (2 ≤ failed_courses rs p → failure_penalty rs p = 10) := by
  unfold failure_penalty
  refine ⟨fun h0 => ?_, fun h1 => ?_, fun h2 => ?_⟩
  · rw [if_neg (by omega), if_neg (by omega)]
  · rw [if_pos h1]
  · rw [if_neg (by omega), if_pos h2]

theorem failure_penalty_mono (rs : List AssessmentRecord) (p1 p2 : ℚ)
    (h : failed_courses rs p1 ≤ failed_courses rs p2) :
    failure_penalty rs p1 ≤ failure_penalty rs p2 := by
  unfold failure_penalty
  split_ifs <;> first | (exfalso; omega) | norm_num

/-- C1: for every non-empty record set and every passing score, the returned
score is the base SPI minus the failure penalty minus the trend penalty,
clamped to [0, 100]; in particular it always lies in [0, 100]. -/
theorem C1_final_score_clamped (rs : List AssessmentRecord) (p : ℚ) (h : rs ≠ []) :
    (calculate_student_performance_index rs p).spi_score =
      max 0 (min 100 ((calculate_student_performance_index rs p).base_spi -
        (calculate_student_performance_index rs p).failure_penalty -
        (calculate_student_performance_index rs p).trend_penalty)) ∧
    0 ≤ (calculate_student_performance_index rs p).spi_score ∧
    (calculate_student_performance_index rs p).spi_score ≤ 100 :=
  ⟨rfl, spi_score_nonneg rs p, spi_score_le_100 rs p⟩

/-- Pathological input of C1: a single row with all assessment scores 0 and a
raised-hand count of 1000. -/
def exC1 : List AssessmentRecord := [⟨"Math", 1, 0, 0, 1000⟩]

theorem C1_witness :
    exC1 ≠ [] ∧
    ((calculate_student_performance_index exC1 60).spi_score =
      max 0 (min 100 ((calculate_student_performance_index exC1 60).base_spi -
        (calculate_student_performance_index exC1 60).failure_penalty -
        (calculate_student_performance_index exC1 60).trend_penalty)) ∧
    0 ≤ (calculate_student_performance_index exC1 60).spi_score ∧
    (calculate_student_performance_index exC1 60).spi_score ≤ 100) :=
  ⟨List.cons_ne_nil _ _, C1_final_score_clamped exC1 60 (List.cons_ne_nil _ _)⟩

/-- C2: for every non-empty record set, the base SPI is the weighted sum of
the mean assessment score (x 0.60), the mean attendance rate (x 0.25) and
the capped normalized engagement (x 0.15), and the three addends are the
components returned in the breakdown. -/
theorem C2_base_spi_components (rs : List AssessmentRecord) (p : ℚ) (h : rs ≠ []) :
    (calculate_student_performance_index rs p).academic_component
      = listMean (rs.map fun r => r.assessment_score) * 0.60 ∧
    (calculate_student_performance_index rs p).attendance_component
      = listMean (rs.map fun r => r.attendance_rate) * 0.25 ∧
    (calculate_student_performance_index rs p).normalized_engagement
      = min (listMean (rs.map fun r => r.raised_hand_count) / 30 * 100) 100 ∧
    (calculate_student_performance_index rs p).engagement_component
      = (calculate_student_performance_index rs p).normalized_engagement * 0.15 ∧
    (calculate_student_performance_index rs p).base_spi
      = (calculate_student_performance_index rs p).academic_component
        + (calculate_student_performance_index rs p).attendance_component
        + (calculate_student_performance_index rs p).engagement_component :=
  ⟨rfl, rfl, rfl, rfl, rfl⟩

def exC2 : List AssessmentRecord := [⟨"Math", 1, 90, 100, 30⟩]

theorem C2_witness :
    exC2 ≠ [] ∧
    ((calculate_student_performance_index exC2 60).academic_component
      = listMean (exC2.map fun r => r.assessment_score) * 0.60 ∧
    (calculate_student_performance_index exC2 60).attendance_component
      = listMean (exC2.map fun r => r.attendance_rate) * 0.25 ∧
    (calculate_student_performance_index exC2 60).normalized_engagement
      = min (listMean (exC2.map fun r => r.raised_hand_count) / 30 * 100) 100 ∧
    (calculate_student_performance_index exC2 60).engagement_component
      = (calculate_student_performance_index exC2 60).normalized_engagement * 0.15 ∧
    (calculate_student_performance_index exC2 60).base_spi
      = (calculate_student_performance_index exC2 60).academic_component
        + (calculate_student_performance_index exC2 60).attendance_component
        + (calculate_student_performance_index exC2 60).engagement_component) :=
  ⟨List.cons_ne_nil _ _, C2_base_spi_components exC2 60 (List.cons_ne_nil _ _)⟩

/-- C3: for every non-empty record set, the status is the classification of
the final clamped score, with closed lower bounds on every band, and the
status color is the fixed token of the status. -/
theorem C3_status_of_score (rs : List AssessmentRecord) (p : ℚ) (h : rs ≠ []) :
    (calculate_student_performance_index rs p).status
      = classify (calculate_student_performance_index rs p).spi_score ∧
    ((calculate_student_performance_index rs p).status = Status.EXCELLENT ↔
      80 ≤ (calculate_student_performance_index rs p).spi_score) ∧
    ((calculate_student_performance_index rs p).status = Status.SATISFACTORY ↔
      65 ≤ (calculate_student_performance_index rs p).spi_score ∧
      (calculate_student_performance_index rs p).spi_score < 80) ∧
    ((calculate_student_performance_index rs p).status = Status.ATRISK ↔
      50 ≤ (calculate_student_performance_index rs p).spi_score ∧
      (calculate_student_performance_index rs p).spi_score < 65) ∧
    ((calculate_student_performance_index rs p).status = Status.CRITICAL ↔
      (calculate_student_performance_index rs p).spi_score < 50) ∧
    (calculate_student_performance_index rs p).status_color
      = status_color (calculate_student_performance_index rs p).status :=
  ⟨rfl, classify_excellent_iff _, classify_satisfactory_iff _, classify_atrisk_iff _,
    classify_critical_iff _, rfl⟩

def exC3 : List AssessmentRecord := [⟨"Math", 1, 50, 80, 30⟩]

theorem C3_witness :
    exC3 ≠ [] ∧
    ((calculate_student_performance_index exC3 45).status
      = classify (calculate_student_performance_index exC3 45).spi_score ∧
    ((calculate_student_performance_index exC3 45).status = Status.EXCELLENT ↔
      80 ≤ (calculate_student_performance_index exC3 45).spi_score) ∧
    ((calculate_student_performance_index exC3 45).status = Status.SATISFACTORY ↔
      65 ≤ (calculate_student_performance_index exC3 45).spi_score ∧
      (calculate_student_performance_index exC3 45).spi_score < 80) ∧
    ((calculate_student_performance_index exC3 45).status = Status.ATRISK ↔
      50 ≤ (calculate_student_performance_index exC3 45).spi_score ∧
      (calculate_student_performance_index exC3 45).spi_score < 65) ∧
    ((calculate_student_performance_index exC3 45).status = Status.CRITICAL ↔
      (calculate_student_performance_index exC3 45).spi_score < 50) ∧
    (calculate_student_performance_index exC3 45).status_color
      = status_color (calculate_student_performance_index exC3 45).status) :=
  ⟨List.cons_ne_nil _ _, C3_status_of_score exC3 45 (List.cons_ne_nil _ _)⟩

/-- C4: for every non-empty record set and every passing score, the failed
course count is the number of distinct courses whose per-course mean score
is strictly below the passing score (a course whose mean equals the passing
score is not failed), and the penalty is the step function 0 / 5 / 10 of
that count. -/
theorem C4_failure_penalty_step (rs : List AssessmentRecord) (p : ℚ) (h : rs ≠ []) :
    (calculate_student_performance_index rs p).failed_courses
      = (courseNames rs).countP (fun c => decide (course_mean rs c < p)) ∧
    ((calculate_student_performance_index rs p).failed_courses = 0 →
      (calculate_student_performance_index rs p).failure_penalty = 0) ∧
    ((calculate_student_performance_index rs p).failed_courses = 1 →
      (calculate_student_performance_index rs p).failure_penalty = 5) ∧
    (2 ≤ (calculate_student_performance_index rs p).failed_courses →
      (calculate_student_performance_index rs p).failure_penalty = 10) ∧
    (∀ c ∈ courseNames rs, course_mean rs c = p → ¬ course_mean rs c < p) := by
  refine ⟨rfl, (failure_penalty_cases rs p).1, (failure_penalty_cases rs p).2.1,
    (failure_penalty_cases rs p).2.2, ?_⟩
  intro c _ hc
  rw [hc]
  exact lt_irrefl p

def exC4 : List AssessmentRecord := [⟨"Math", 1, 40, 50, 0⟩, ⟨"Art", 1, 90, 50, 0⟩]

theorem C4_witness :
    exC4 ≠ [] ∧
    ((calculate_student_performance_index exC4 60).failed_courses
      = (courseNames exC4).countP (fun c => decide (course_mean exC4 c < 60)) ∧
    ((calculate_student_performance_index exC4 60).failed_courses = 0 →
      (calculate_student_performance_index exC4 60).failure_penalty = 0) ∧
    ((calculate_student_performance_index exC4 60).failed_courses = 1 →
      (calculate_student_performance_index exC4 60).failure_penalty = 5) ∧
    (2 ≤ (calculate_student_performance_index exC4 60).failed_courses →
      (calculate_student_performance_index exC4 60).failure_penalty = 10) ∧
    (∀ c ∈ courseNames exC4, course_mean exC4 c = 60 → ¬ course_mean exC4 c < 60)) :=
  ⟨List.cons_ne_nil _ _, C4_failure_penalty_step exC4 60 (List.cons_ne_nil _ _)⟩

/-- C5: for every non-empty record set, with fewer than 2 distinct assessment
numbers the trend change and penalty are 0; otherwise the change is the mean
score of the maximum assessment number minus that of the minimum (the first
and last groups in ascending key order), and the penalty is 5 exactly when
the change is strictly below -10. -/
theorem C5_trend_penalty (rs : List AssessmentRecord) (p : ℚ) (h : rs ≠ []) :
    ((assessmentNos rs).length < 2 →
      (calculate_student_performance_index rs p).performance_trend = 0 ∧
      (calculate_student_performance_index rs p).trend_penalty = 0) ∧
    (2 ≤ (assessmentNos rs).length →
      (firstNo rs ∈ rs.map fun r => r.assessment_no) ∧
      (∀ n ∈ rs.map fun r => r.assessment_no, firstNo rs ≤ n) ∧
      (lastNo rs ∈ rs.map fun r => r.assessment_no) ∧
      (∀ n ∈ rs.map fun r => r.assessment_no, n ≤ lastNo rs) ∧
      (calculate_student_performance_index rs p).performance_trend
        = mean_at rs (lastNo rs) - mean_at rs (firstNo rs)) ∧
    ((calculate_student_performance_index rs p).trend_penalty
      = if (calculate_student_performance_index rs p).performance_trend < -10
        then 5 else 0) := by
  have hmap : rs.map (fun r => r.assessment_no) ≠ [] := by
    cases rs with
    | nil => exact absurd rfl h
    | cons a t => simp
  refine ⟨?_, ?_, ?_⟩
  · intro hlt
    have h2 : ¬ 2 ≤ (assessmentNos rs).length := by omega
    constructor
    · show performance_change rs = 0
      unfold performance_change
      rw [if_neg h2]
    · show trend_penalty rs = 0
      simp [trend_penalty, h2]
  · intro h2
    refine ⟨listMin_mem _ hmap, fun n hn => listMin_le _ _ hn, listMax_mem _ hmap,
      fun n hn => le_listMax _ _ hn, ?_⟩
    show performance_change rs = _
    unfold performance_change
    rw [if_pos h2]
  · show trend_penalty rs = if performance_change rs < -10 then 5 else 0
    by_cases h2 : 2 ≤ (assessmentNos rs).length
    · simp [trend_penalty, h2]
    · have hch : performance_change rs = 0 := by
        unfold performance_change
        rw [if_neg h2]
      norm_num [trend_penalty, h2, hch]

/-- The trend scenario of C5: assessment numbers [1, 2, 3] with group mean
scores [80, 85, 60]. -/
def exC5 : List AssessmentRecord :=
  [⟨"Math", 1, 80, 100, 10⟩, ⟨"Math", 2, 85, 100, 10⟩, ⟨"Math", 3, 60, 100, 10⟩]

theorem C5_witness :
    exC5 ≠ [] ∧
    (((assessmentNos exC5).length < 2 →
      (calculate_student_performance_index exC5 60).performance_trend = 0 ∧
      (calculate_student_performance_index exC5 60).trend_penalty = 0) ∧
    (2 ≤ (assessmentNos exC5).length →
      (firstNo exC5 ∈ exC5.map fun r => r.assessment_no) ∧
      (∀ n ∈ exC5.map fun r => r.assessment_no, firstNo exC5 ≤ n) ∧
      (lastNo exC5 ∈ exC5.map fun r => r.assessment_no) ∧
      (∀ n ∈ exC5.map fun r => r.assessment_no, n ≤ lastNo exC5) ∧
      (calculate_student_performance_index exC5 60).performance_trend
        = mean_at exC5 (lastNo exC5) - mean_at exC5 (firstNo exC5)) ∧
    ((calculate_student_performance_index exC5 60).trend_penalty
      = if (calculate_student_performance_index exC5 60).performance_trend < -10
        then 5 else 0)) ∧
    (calculate_student_performance_index exC5 60).performance_trend = -20 ∧
    (calculate_student_performance_index exC5 60).trend_penalty = 5 := by
  have hlen : (assessmentNos exC5).length = 3 := by decide
  have hf : firstNo exC5 = 1 := by decide
  have hl : lastNo exC5 = 3 := by decide
  have hs1 : scores_at exC5 1 = [80] := by decide
  have hs3 : scores_at exC5 3 = [60] := by decide
  have hch : performance_change exC5 = -20 := by
    unfold performance_change
    rw [if_pos (by omega), hf, hl]
    unfold mean_at
    rw [hs1, hs3]
    norm_num [listMean]
  refine ⟨List.cons_ne_nil _ _, C5_trend_penalty exC5 60 (List.cons_ne_nil _ _), ?_, ?_⟩
  · exact hch
  · show trend_penalty exC5 = 5
    unfold trend_penalty
    rw [if_pos ⟨by omega, by rw [hch]; norm_num⟩]

theorem at_risk_iff_status (s : Status) :
    at_risk s = true ↔ (s = Status.ATRISK ∨ s = Status.CRITICAL) := by
  cases s <;> decide

theorem at_risk_classify_iff (s : ℚ) : at_risk (classify s) = true ↔ s < 65 := by
  unfold classify
  split_ifs with h1 h2 h3
  · simp only [show at_risk Status.EXCELLENT = false from rfl, Bool.false_eq_true,
      false_iff, not_lt]
    linarith
  · simp only [show at_risk Status.SATISFACTORY = false from rfl, Bool.false_eq_true,
      false_iff, not_lt]
    exact h2
  · simp only [show at_risk Status.ATRISK = true from rfl, true_iff]
    exact lt_of_not_ge h2
  · simp only [show at_risk Status.CRITICAL = true from rfl, true_iff]
    exact lt_of_not_ge h2

/-- C8: a student is flagged at risk by the cohort aggregation exactly when
the status is AT RISK or CRITICAL, which holds exactly when the final SPI
score is strictly below 65. -/
theorem C8_at_risk_iff (rs : List AssessmentRecord) (p : ℚ) (h : rs ≠ []) :
    (at_risk (calculate_student_performance_index rs p).status = true ↔
      ((calculate_student_performance_index rs p).status = Status.ATRISK ∨
        (calculate_student_performance_index rs p).status = Status.CRITICAL)) ∧
    (at_risk (calculate_student_performance_index rs p).status = true ↔
      (calculate_student_performance_index rs p).spi_score < 65) := by
  rw [calc_status, calc_spi_score]
  exact ⟨at_risk_iff_status _, at_risk_classify_iff _⟩

def exC8 : List AssessmentRecord := [⟨"Math", 1, 40, 50, 5⟩]

theorem C8_witness :
    exC8 ≠ [] ∧
    ((at_risk (calculate_student_performance_index exC8 60).status = true ↔
      ((calculate_student_performance_index exC8 60).status = Status.ATRISK ∨
        (calculate_student_performance_index exC8 60).status = Status.CRITICAL)) ∧
    (at_risk (calculate_student_performance_index exC8 60).status = true ↔
      (calculate_student_performance_index exC8 60).spi_score < 65)) :=
  ⟨List.cons_ne_nil _ _, C8_at_risk_iff exC8 60 (List.cons_ne_nil _ _)⟩

/-- The scenario of C9: one course, two assessments, both scores 90,
attendance 100, raised-hand count 30. -/
def exC9 : List AssessmentRecord := [⟨"Math", 1, 90, 100, 30⟩, ⟨"Math", 2, 90, 100, 30⟩]

/-- C9: on the single-course scenario with scores [90, 90], attendance 100 and
raised-hand count 30 at passing score 60, the engine returns academic 54,
attendance 25, engagement 15, base 94, no failed course, no trend penalty,
final score 94 and status EXCELLENT. -/
theorem C9_scenario :
    (calculate_student_performance_index exC9 60).academic_component = 54 ∧
    (calculate_student_performance_index exC9 60).attendance_component = 25 ∧
    (calculate_student_performance_index exC9 60).engagement_component = 15 ∧
    (calculate_student_performance_index exC9 60).base_spi = 94 ∧
    (calculate_student_performance_index exC9 60).failed_courses = 0 ∧
    (calculate_student_performance_index exC9 60).trend_penalty = 0 ∧
    (calculate_student_performance_index exC9 60).spi_score = 94 ∧
    (calculate_student_performance_index exC9 60).status = Status.EXCELLENT := by
  have hac : academic_component exC9 = 54 := by
    unfold academic_component avg_score
    rw [show exC9.map (fun r => r.assessment_score) = [90, 90] from by decide]
    norm_num [listMean]
  have hat : attendance_component exC9 = 25 := by
    unfold attendance_component avg_attendance
    rw [show exC9.map (fun r => r.attendance_rate) = [100, 100] from by decide]
    norm_num [listMean]
  have hnorm : normalized_engagement exC9 = 100 := by
    unfold normalized_engagement avg_engagement
    rw [show exC9.map (fun r => r.raised_hand_count) = [30, 30] from by decide]
    norm_num [listMean]
  have hen : engagement_component exC9 = 15 := by
    unfold engagement_component
    rw [hnorm]
    norm_num
  have hbase : base_spi exC9 = 94 := by
    unfold base_spi
    rw [hac, hat, hen]
    norm_num
  have hmean : course_mean exC9 "Math" = 90 := by
    unfold course_mean
    rw [show (exC9.filter fun r => r.course_name == "Math").map
        (fun r => r.assessment_score) = [90, 90] from by decide]
    norm_num [listMean]
  have hfail : failed_courses exC9 60 = 0 := by
    unfold failed_courses
    rw [show courseNames exC9 = ["Math"] from by decide]
    rw [List.countP_cons, List.countP_nil]
    norm_num [hmean]
  have hfp : failure_penalty exC9 60 = 0 := by
    unfold failure_penalty
    rw [hfail]
    norm_num
  have hch : performance_change exC9 = 0 := by
    unfold performance_change
    rw [if_pos (by decide)]
    rw [show firstNo exC9 = 1 from by decide, show lastNo exC9 = 2 from by decide]
    unfold mean_at
    rw [show scores_at exC9 1 = [90] from by decide,
      show scores_at exC9 2 = [90] from by decide]
    norm_num [listMean]
  have htr : trend_penalty exC9 = 0 := by
    unfold trend_penalty
    rw [if_neg]
    rintro ⟨-, hc2⟩
    rw [hch] at hc2
    norm_num at hc2
  have hspi : spi_score exC9 60 = 94 := by
    unfold spi_score
    rw [hbase, hfp, htr]
    norm_num
  refine ⟨hac, hat, hen, hbase, hfail, htr, hspi, ?_⟩
  show classify (spi_score exC9 60) = Status.EXCELLENT
  rw [hspi]
  unfold classify
  rw [if_pos (by norm_num)]

/-- C10: for a fixed non-empty record set the final score is weakly
decreasing in the passing score: the failed-course count is weakly
increasing in the threshold, hence so is the failure penalty, while every
other quantity is unchanged. -/
theorem C10_score_antitone_in_passing (rs : List AssessmentRecord) (p1 p2 : ℚ)
    (h : rs ≠ []) (hp : p1 ≤ p2) :
    (calculate_student_performance_index rs p2).spi_score ≤
      (calculate_student_performance_index rs p1).spi_score := by
  have hcount : failed_courses rs p1 ≤ failed_courses rs p2 := by
    unfold failed_courses
    apply List.countP_mono_left
    intro c _ hc
    simp only [decide_eq_true_eq] at hc ⊢
    exact lt_of_lt_of_le hc hp
  have hpen := failure_penalty_mono rs p1 p2 hcount
  show spi_score rs p2 ≤ spi_score rs p1
  unfold spi_score
  apply clamp_mono
  linarith

def exC10 : List AssessmentRecord := [⟨"Math", 1, 55, 80, 10⟩]

theorem C10_witness :
    exC10 ≠ [] ∧ (50 : ℚ) ≤ 70 ∧
    (calculate_student_performance_index exC10 70).spi_score ≤
      (calculate_student_performance_index exC10 50).spi_score :=
  ⟨List.cons_ne_nil _ _, by norm_num,
    C10_score_antitone_in_passing exC10 50 70 (List.cons_ne_nil _ _) (by norm_num)⟩

/-- Adding a constant to the assessment score of a row, leaving every other
column unchanged (the transformation of the monotonicity property C6). -/
def bump (c : ℚ) (r : AssessmentRecord) : AssessmentRecord :=
  { r with assessment_score := r.assessment_score + c }

theorem map_ne_nil {α β : Type} (f : α → β) {l : List α} (h : l ≠ []) :
    l.map f ≠ [] := by
  cases l with
  | nil => exact absurd rfl h
  | cons a t => simp

theorem map_course_name_bump (c : ℚ) (rs : List AssessmentRecord) :
    (rs.map (bump c)).map (fun r => r.course_name) = rs.map fun r => r.course_name := by
  rw [List.map_map]
  rfl

theorem map_no_bump (c : ℚ) (rs : List AssessmentRecord) :
    (rs.map (bump c)).map (fun r => r.assessment_no) = rs.map fun r => r.assessment_no := by
  rw [List.map_map]
  rfl

theorem map_attendance_bump (c : ℚ) (rs : List AssessmentRecord) :
    (rs.map (bump c)).map (fun r => r.attendance_rate) = rs.map fun r => r.attendance_rate := by
  rw [List.map_map]
  rfl

theorem map_hand_bump (c : ℚ) (rs : List AssessmentRecord) :
    (rs.map (bump c)).map (fun r => r.raised_hand_count)
      = rs.map fun r => r.raised_hand_count := by
  rw [List.map_map]
  rfl

theorem map_score_bump (c : ℚ) (rs : List AssessmentRecord) :
    (rs.map (bump c)).map (fun r => r.assessment_score)
      = (rs.map fun r => r.assessment_score).map fun x => x + c := by
  rw [List.map_map, List.map_map]
  rfl

theorem filter_bump (c : ℚ) (rs : List AssessmentRecord) (q : AssessmentRecord → Bool)
    (hq : ∀ r, q (bump c r) = q r) :
    (rs.map (bump c)).filter q = (rs.filter q).map (bump c) := by
  induction rs with
  | nil => rfl
  | cons a t ih =>
    simp only [List.map_cons, List.filter_cons, hq a]
    cases hqa : q a <;> simp [ih]

theorem course_filter_ne_nil {rs : List AssessmentRecord} {cn : String}
    (h : cn ∈ courseNames rs) : (rs.filter fun r => r.course_name == cn) ≠ [] := by
  unfold courseNames at h
  rw [List.mem_dedup] at h
  rcases List.mem_map.mp h with ⟨r, hr, hrc⟩
  intro hnil
  have hmem : r ∈ rs.filter fun r => r.course_name == cn :=
    List.mem_filter.mpr ⟨hr, by simp [hrc]⟩
  rw [hnil] at hmem
  simp at hmem

theorem scores_at_ne_nil {rs : List AssessmentRecord} {n : ℤ}
    (h : n ∈ rs.map fun r => r.assessment_no) : scores_at rs n ≠ [] := by
  rcases List.mem_map.mp h with ⟨r, hr, hrn⟩
  unfold scores_at
  apply map_ne_nil
  intro hnil
  have hmem : r ∈ rs.filter fun r => r.assessment_no == n :=
    List.mem_filter.mpr ⟨hr, by simp [hrn]⟩
  rw [hnil] at hmem
  simp at hmem

theorem course_mean_bump (c : ℚ) (rs : List AssessmentRecord) (cn : String)
    (h : cn ∈ courseNames rs) :
    course_mean (rs.map (bump c)) cn = course_mean rs cn + c := by
  unfold course_mean
  rw [filter_bump c rs (fun r => r.course_name == cn) (fun r => rfl), map_score_bump]
  exact listMean_map_add _ c (map_ne_nil _ (course_filter_ne_nil h))

theorem mean_at_bump (c : ℚ) (rs : List AssessmentRecord) (n : ℤ)
    (h : n ∈ rs.map fun r => r.assessment_no) :
    mean_at (rs.map (bump c)) n = mean_at rs n + c := by
  unfold mean_at scores_at
  rw [filter_bump c rs (fun r => r.assessment_no == n) (fun r => rfl), map_score_bump]
  exact listMean_map_add _ c (scores_at_ne_nil h)

theorem assessmentNos_bump (c : ℚ) (rs : List AssessmentRecord) :
    assessmentNos (rs.map (bump c)) = assessmentNos rs := by
  unfold assessmentNos
  rw [map_no_bump]

theorem firstNo_bump (c : ℚ) (rs : List AssessmentRecord) :
    firstNo (rs.map (bump c)) = firstNo rs := by
  unfold firstNo
  rw [map_no_bump]

theorem lastNo_bump (c : ℚ) (rs : List AssessmentRecord) :
    lastNo (rs.map (bump c)) = lastNo rs := by
  unfold lastNo
  rw [map_no_bump]

theorem performance_change_bump (c : ℚ) (rs : List AssessmentRecord) :
    performance_change (rs.map (bump c)) = performance_change rs := by
  unfold performance_change
  rw [assessmentNos_bump, firstNo_bump, lastNo_bump]
  by_cases h2 : 2 ≤ (assessmentNos rs).length
  · rw [if_pos h2, if_pos h2]
    have hmap : rs.map (fun r => r.assessment_no) ≠ [] := by
      intro hnil
      unfold assessmentNos at h2
      rw [hnil] at h2
      simp at h2
    rw [mean_at_bump c rs (lastNo rs) (listMax_mem _ hmap),
      mean_at_bump c rs (firstNo rs) (listMin_mem _ hmap)]
    ring
  · rw [if_neg h2, if_neg h2]

theorem trend_penalty_bump (c : ℚ) (rs : List AssessmentRecord) :
    trend_penalty (rs.map (bump c)) = trend_penalty rs := by
  unfold trend_penalty
  rw [assessmentNos_bump, performance_change_bump]

theorem avg_score_bump (c : ℚ) (rs : List AssessmentRecord) (h : rs ≠ []) :
    avg_score (rs.map (bump c)) = avg_score rs + c := by
  unfold avg_score
  rw [map_score_bump]
  exact listMean_map_add _ c (map_ne_nil _ h)

theorem avg_attendance_bump (c : ℚ) (rs : List AssessmentRecord) :
    avg_attendance (rs.map (bump c)) = avg_attendance rs := by
  unfold avg_attendance
  rw [map_attendance_bump]

theorem avg_engagement_bump (c : ℚ) (rs : List AssessmentRecord) :
    avg_engagement (rs.map (bump c)) = avg_engagement rs := by
  unfold avg_engagement
  rw [map_hand_bump]

/-- C6: raising every assessment score by a positive constant, holding
attendance and engagement fixed, does not decrease the final score provided
no per-course mean crosses the passing threshold (the failed-course set is
unchanged); the trend penalty is unchanged because a uniform shift leaves
the performance change unchanged. -/
theorem C6_score_monotone (rs : List AssessmentRecord) (p c : ℚ) (h : rs ≠ [])
    (hc : 0 < c)
    (hb : ∀ cn ∈ courseNames rs,
      (course_mean rs cn < p ↔ course_mean (rs.map (bump c)) cn < p)) :
    (calculate_student_performance_index rs p).spi_score ≤
      (calculate_student_performance_index (rs.map (bump c)) p).spi_score := by
  have hnames : courseNames (rs.map (bump c)) = courseNames rs := by
    unfold courseNames
    rw [map_course_name_bump]
  have hfail : failed_courses (rs.map (bump c)) p = failed_courses rs p := by
    unfold failed_courses
    rw [hnames]
    apply List.countP_congr
    intro cn hcn
    simp only [decide_eq_true_eq]
    exact (hb cn hcn).symm
  have hfp : failure_penalty (rs.map (bump c)) p = failure_penalty rs p := by
    unfold failure_penalty
    rw [hfail]
  have htp : trend_penalty (rs.map (bump c)) = trend_penalty rs := trend_penalty_bump c rs
  have h1 : academic_component (rs.map (bump c)) = academic_component rs + c * 0.60 := by
    unfold academic_component
    rw [avg_score_bump c rs h]
    ring
  have h2 : attendance_component (rs.map (bump c)) = attendance_component rs := by
    unfold attendance_component
    rw [avg_attendance_bump]
  have h3 : engagement_component (rs.map (bump c)) = engagement_component rs := by
    unfold engagement_component normalized_engagement
    rw [avg_engagement_bump]
  have hbase : base_spi (rs.map (bump c)) = base_spi rs + c * 0.60 := by
    unfold base_spi
    rw [h1, h2, h3]
    ring
  show spi_score rs p ≤ spi_score (rs.map (bump c)) p
  unfold spi_score
  rw [hbase, hfp, htp]
  apply clamp_mono
  nlinarith

def exC6 : List AssessmentRecord := [⟨"Math", 1, 70, 80, 10⟩]

theorem C6_witness :
    exC6 ≠ [] ∧ (0 : ℚ) < 5 ∧
    (∀ cn ∈ courseNames exC6,
      (course_mean exC6 cn < 60 ↔ course_mean (exC6.map (bump 5)) cn < 60)) ∧
    (calculate_student_performance_index exC6 60).spi_score ≤
      (calculate_student_performance_index (exC6.map (bump 5)) 60).spi_score := by
  have e1 : course_mean exC6 "Math" = 70 := by
    unfold course_mean
    rw [show (exC6.filter fun r => r.course_name == "Math").map
        (fun r => r.assessment_score) = [70] from by decide]
    norm_num [listMean]
  have hb : ∀ cn ∈ courseNames exC6,
      (course_mean exC6 cn < 60 ↔ course_mean (exC6.map (bump 5)) cn < 60) := by
    intro cn hcn
    rw [show courseNames exC6 = ["Math"] from by decide] at hcn
    simp only [List.mem_singleton] at hcn
    subst hcn
    rw [course_mean_bump 5 exC6 "Math" (by decide), e1]
    norm_num
  exact ⟨List.cons_ne_nil _ _, by norm_num, hb,
    C6_score_monotone exC6 60 5 (List.cons_ne_nil _ _) (by norm_num) hb⟩

theorem firstNo_append (rs extra : List AssessmentRecord) (h : rs ≠ [])
    (hmid : ∀ r ∈ extra, firstNo rs < r.assessment_no) :
    firstNo (rs ++ extra) = firstNo rs := by
  unfold firstNo
  rw [List.map_append]
  apply listMin_append
  · exact map_ne_nil _ h
  · intro x hx
    rcases List.mem_map.mp hx with ⟨r, hr, rfl⟩
    exact hmid r hr

theorem lastNo_append (rs extra : List AssessmentRecord) (h : rs ≠ [])
    (hmid : ∀ r ∈ extra, r.assessment_no < lastNo rs) :
    lastNo (rs ++ extra) = lastNo rs := by
  unfold lastNo
  rw [List.map_append]
  apply listMax_append
  · exact map_ne_nil _ h
  · intro x hx
    rcases List.mem_map.mp hx with ⟨r, hr, rfl⟩
    exact hmid r hr

theorem scores_at_append (rs extra : List AssessmentRecord) (n : ℤ)
    (hne : ∀ r ∈ extra, r.assessment_no ≠ n) :
    scores_at (rs ++ extra) n = scores_at rs n := by
  have hfilter : extra.filter (fun r => r.assessment_no == n) = [] := by
    rw [List.filter_eq_nil_iff]
    intro r hr
    simp [hne r hr]
  unfold scores_at
  rw [List.filter_append, hfilter, List.append_nil]

/-- C7: the trend penalty depends only on the group means of the minimum and
maximum assessment numbers; appending rows whose assessment numbers lie
strictly between them does not change the trend penalty. -/
theorem C7_trend_middle_invariant (rs extra : List AssessmentRecord) (p : ℚ)
    (h : rs ≠ [])
    (hmid : ∀ r ∈ extra, firstNo rs < r.assessment_no ∧ r.assessment_no < lastNo rs) :
    (calculate_student_performance_index (rs ++ extra) p).trend_penalty =
      (calculate_student_performance_index rs p).trend_penalty := by
  show trend_penalty (rs ++ extra) = trend_penalty rs
  cases extra with
  | nil => rw [List.append_nil]
  | cons e es =>
    have hlt : firstNo rs < lastNo rs :=
      lt_trans (hmid e (by simp)).1 (hmid e (by simp)).2
    have hmap : rs.map (fun r => r.assessment_no) ≠ [] := map_ne_nil _ h
    have hf : firstNo (rs ++ e :: es) = firstNo rs :=
      firstNo_append rs (e :: es) h (fun r hr => (hmid r hr).1)
    have hl : lastNo (rs ++ e :: es) = lastNo rs :=
      lastNo_append rs (e :: es) h (fun r hr => (hmid r hr).2)
    have h2rs : 2 ≤ (assessmentNos rs).length :=
      two_le_dedup_length (listMin_mem _ hmap) (listMax_mem _ hmap) (ne_of_lt hlt)
    have hmemf : firstNo rs ∈ (rs ++ e :: es).map fun r => r.assessment_no := by
      rw [List.map_append]
      exact List.mem_append_left _ (listMin_mem _ hmap)
    have hmeml : lastNo rs ∈ (rs ++ e :: es).map fun r => r.assessment_no := by
      rw [List.map_append]
      exact List.mem_append_left _ (listMax_mem _ hmap)
    have h2app : 2 ≤ (assessmentNos (rs ++ e :: es)).length :=
      two_le_dedup_length hmemf hmeml (ne_of_lt hlt)
    have hmean_f : mean_at (rs ++ e :: es) (firstNo rs) = mean_at rs (firstNo rs) := by
      unfold mean_at
      rw [scores_at_append rs (e :: es) _ (fun r hr => ne_of_gt (hmid r hr).1)]
    have hmean_l : mean_at (rs ++ e :: es) (lastNo rs) = mean_at rs (lastNo rs) := by
      unfold mean_at
      rw [scores_at_append rs (e :: es) _ (fun r hr => ne_of_lt (hmid r hr).2)]
    have hch : performance_change (rs ++ e :: es) = performance_change rs := by
      unfold performance_change
      rw [if_pos h2app, if_pos h2rs, hf, hl, hmean_f, hmean_l]
    unfold trend_penalty
    rw [hch]
    simp [h2rs, h2app]

/-- The endpoint assessments of the C7 witness. -/
def exC7 : List AssessmentRecord := [⟨"Math", 1, 80, 100, 10⟩, ⟨"Math", 3, 78, 100, 10⟩]

/-- A sharply lower-scoring assessment strictly between the endpoints. -/
def exC7mid : List AssessmentRecord := [⟨"Math", 2, 10, 100, 10⟩]

theorem C7_witness :
    exC7 ≠ [] ∧
    (∀ r ∈ exC7mid,
      firstNo exC7 < r.assessment_no ∧ r.assessment_no < lastNo exC7) ∧
    (calculate_student_performance_index (exC7 ++ exC7mid) 60).trend_penalty =
      (calculate_student_performance_index exC7 60).trend_penalty :=
  ⟨List.cons_ne_nil _ _, by decide,
    C7_trend_middle_invariant exC7 exC7mid 60 (List.cons_ne_nil _ _) (by decide)⟩
